import Mathlib

/-!
Shallow embedding of the order / subscription lifecycle engine of the
opencollective API (src/server/graphql/v1/mutations/orders.js), together
with theorems settling the frozen claims about it.

JavaScript values are modelled as follows: numbers are `Int`, nullable or
possibly-undefined values are `Option`, JS truthiness of strings and
numbers is made explicit through `strT` / `intT` / `jsPos`, and a property
access on `null`/`undefined` raises a `typeError`.  Database rows live in
an explicit state `St`; external collaborators (payment provider, GitHub
verification, md5, recaptcha, the billing-calendar library) are an
environment `Env` of pure functions, as the spec treats them as external
capabilities.
-/

namespace OrdersSpec

inductive ErrKind where
  | validationFailed
  | unauthorized
  | notFound
  | generic
  | typeError
deriving DecidableEq, Repr

structure JsError where
  kind : ErrKind
  msg : String
deriving DecidableEq, Repr

/-- A JS `TypeError` raised by a property access on null/undefined. -/
def typeErr : JsError := ⟨ErrKind.typeError, "Cannot read property of null or undefined"⟩

def gen (m : String) : JsError := ⟨ErrKind.generic, m⟩

def vf (m : String) : JsError := ⟨ErrKind.validationFailed, m⟩

/-- JS truthiness of an optional string (empty string is falsy). -/
def strT : Option String → Bool
  | none => false
  | some s => !s.isEmpty

/-- JS truthiness of an optional number (0 is falsy). -/
def intT : Option Int → Bool
  | none => false
  | some n => decide (n ≠ 0)

/-- JS `x > 0` where `x` may be null/undefined (then false). -/
def jsPos : Option Int → Bool
  | none => false
  | some n => decide (0 < n)

/-- JS `x > m` where `x` may be null/undefined (then false). -/
def jsGtI : Option Int → Int → Bool
  | none, _ => false
  | some x, m => decide (m < x)

/-- JS `a || b` for an optional string with a string default. -/
def jsOrStr (a : Option String) (b : String) : String :=
  match a with
  | some s => if s.isEmpty then b else s
  | none => b

/-- JS `order.quantity || 1` (so 0 and undefined both become the default). -/
def jsOrInt (a : Option Int) (b : Int) : Int :=
  match a with
  | some n => if n = 0 then b else n
  | none => b

inductive CollType where
  | COLLECTIVE
  | EVENT
  | ORGANIZATION
  | USER
deriving DecidableEq, Repr

inductive Role where
  | ADMIN
  | HOST
  | MEMBER
  | BACKER
  | ATTENDEE
  | FUNDRAISER
deriving DecidableEq, Repr

inductive OrderStatus where
  | PENDING
  | PAID
  | ACTIVE
  | CANCELLED
  | ERROR
deriving DecidableEq, Repr

inductive ActKind where
  | TICKET_CONFIRMED
  | SUBSCRIPTION_CANCELED
deriving DecidableEq, Repr

structure Activity where
  akind : ActKind
  CollectiveId : Option Int
  UserId : Option Int
  dataEventCollectiveId : Option Int := none
  dataUserId : Option Int := none
deriving DecidableEq, Repr

/-- A collective row (destination or source account). -/
structure Collective where
  id : Int
  ctype : CollType
  isActive : Bool
  currency : String
  name : String
  slug : String
deriving DecidableEq, Repr

/-- An authenticated user; role predicates are the model of the
`remoteUser.isRoot/isAdmin/hasRole` methods. -/
structure User where
  id : Int
  CollectiveId : Int
  isRoot : Bool
  isAdmin : Int → Bool
  hasRole : List Role → Int → Bool

/-- `user.isAdmin(h)` where `h` may be null (then false, since a null id
matches no membership). -/
def jsIsAdminOpt (u : User) : Option Int → Bool
  | none => false
  | some h => u.isAdmin h

/-- A tier row; `availableOK` models the `tier.checkAvailableQuantity`
inventory query against the store. -/
structure Tier where
  id : Int
  amount : Option Int
  presets : Bool
  currency : Option String
  maxQuantityPerUser : Option Int
  name : String
  availableOK : Option Int → Bool

structure Repo where
  stargazers_count : Int
deriving DecidableEq, Repr

/-- The persisted Order row. -/
structure OrderRec where
  id : Int
  CreatedByUserId : Int
  FromCollectiveId : Int
  CollectiveId : Int
  TierId : Option Int
  quantity : Int
  totalAmount : Option Int
  currency : String
  interval : Option String
  description : String
  processedAt : Option Nat
  status : OrderStatus
  SubscriptionId : Option Int
  ReferralCollectiveId : Option Int
  MatchingPaymentMethodId : Option Int
  PaymentMethodId : Option Int
deriving DecidableEq, Repr

/-- The persisted Subscription row. -/
structure SubRec where
  id : Int
  amount : Option Int
  interval : Option String
  currency : Option String
  isActive : Bool
  nextChargeDate : Option Nat
  chargeRetryCount : Int
  activatedAt : Option Nat
  deactivatedAt : Option Nat
deriving DecidableEq, Repr

/-- The `order.paymentMethod` request payload. -/
structure PMInput where
  service : Option String := none
  uuid : Option String := none
  token : Option String := none
  type : Option String := none
  save : Bool := false
deriving DecidableEq, Repr

structure CollectiveInput where
  id : Option Int := none
  website : Option String := none
  githubHandle : Option String := none
deriving DecidableEq, Repr

structure FromCollectiveInput where
  id : Option Int := none
  name : Option String := none
deriving DecidableEq, Repr

structure UserInput where
  email : Option String := none
deriving DecidableEq, Repr

/-- The `order` argument of the createOrder mutation. -/
structure OrderInput where
  collective : Option CollectiveInput := none
  fromCollective : Option FromCollectiveInput := none
  user : Option UserInput := none
  paymentMethod : Option PMInput := none
  totalAmount : Option Int := none
  quantity : Option Int := none
  currency : Option String := none
  interval : Option String := none
  description : Option String := none
  tier : Option Int := none
  platformFeePercent : Option Int := none
  hostFeePercent : Option Int := none
  matchingFund : Option String := none
  referral : Option Int := none
  recaptchaToken : Option String := none

/-- `config.limits.ordersPerHour`. -/
structure LimitsCfg where
  perAccount : Int
  perAccountForCollective : Int
  perEmail : Int
  perEmailForCollective : Int
  perIp : Int
deriving DecidableEq, Repr

structure LimitSpec where
  key : String
  value : Int
deriving DecidableEq, Repr

structure MatchingFund where
  id : Int
  CollectiveId : Int
  canBeUsed : Bool
deriving DecidableEq, Repr

/-- The store: database rows plus the rate-limiter cache and the trace of
charge executions handed to the payment provider. -/
structure St where
  nextId : Int
  nextSubId : Int
  orders : List OrderRec
  subscriptions : List SubRec
  activities : List Activity
  members : List (Int × Int × Role)
  charges : List Int
  cache : List (String × Int)
  time : Nat
deriving DecidableEq, Repr

/-- External collaborators (spec section 6) and static lookups of rows not
created by the operations under verification. -/
structure Env where
  nodeEnv : String
  ordersPerHour : LimitsCfg
  md5 : String → String
  recaptchaVerify : String → Option String → Option String
  getRepo : String → Option Repo
  getOrg : String → Bool
  getAllOrganizationPublicRepos : String → Option (List Repo)
  loadCollective : Int → Option Collective
  findOrCreateByWebsite : CollectiveInput → Collective
  findOrCreateByGithub : CollectiveInput → Collective
  hostOf : Int → Option Int
  findTier : Int → Option Tier
  findUserByEmail : String → Bool
  createUserWithCollective : UserInput → User
  createOrganization : Option FromCollectiveInput → Collective
  getMatchingFund : String → Option MatchingFund
  setPaymentMethod : OrderRec → Option PMInput → Except JsError OrderRec
  executeOrder : OrderRec → Except JsError OrderRec
  activityCreate : Activity → Except JsError Unit
  findPMByUuid : String → Option Int
  createFromStripeToken : PMInput → Except JsError Int
  updatedNextCharge : OrderRec → Option Nat
  updatedRetryCount : OrderRec → Int

/-! ## Store helpers -/

def findOrd : List OrderRec → Int → Option OrderRec
  | [], _ => none
  | o :: rest, i => if o.id = i then some o else findOrd rest i

def putOrd : List OrderRec → OrderRec → List OrderRec
  | [], _ => []
  | x :: rest, o => (if x.id = o.id then o else x) :: putOrd rest o

def findSub : List SubRec → Int → Option SubRec
  | [], _ => none
  | o :: rest, i => if o.id = i then some o else findSub rest i

def putSub : List SubRec → SubRec → List SubRec
  | [], _ => []
  | x :: rest, o => (if x.id = o.id then o else x) :: putSub rest o

def cacheGet : List (String × Int) → String → Option Int
  | [], _ => none
  | (k, v) :: rest, key => if k = key then some v else cacheGet rest key

def cacheSet : List (String × Int) → String → Int → List (String × Int)
  | [], key, v => [(key, v)]
  | (k, w) :: rest, key, v =>
    if k = key then (k, v) :: rest else (k, w) :: cacheSet rest key v

/-! ## Rate limiter (checkOrdersLimit) -/

/-- The generic-looking error message the limiter throws (the spec's
`LimitExceeded`). -/
def limitErrMsg : String :=
  "Error while processing your request, please try again or contact support@opencollective.com"

/-- Key derivation of checkOrdersLimit (lines 32-73 of orders.js). -/
def buildOrderLimits (env : Env) (inp : OrderInput) (reqIp : Option String) :
    List LimitSpec :=
  let cfg := env.ordersPerHour
  let collectiveId := inp.collective.bind (fun c => c.id)
  let fromCollectiveId := inp.fromCollective.bind (fun f => f.id)
  let userEmail := inp.user.bind (fun u => u.email)
  if intT fromCollectiveId then
    let f := toString (fromCollectiveId.getD 0)
    let base := [⟨"order_limit_on_account_" ++ f, cfg.perAccount⟩]
    if intT collectiveId then
      let cid := toString (collectiveId.getD 0)
      base ++
        [⟨"order_limit_on_account_" ++ f ++ "_and_collective_" ++ cid,
          cfg.perAccountForCollective⟩]
    else base
  else
    (if strT userEmail then
      let eh := env.md5 (userEmail.getD "")
      [⟨"order_limit_on_email_" ++ eh, cfg.perEmail⟩] ++
        (if intT collectiveId then
          let cid := toString (collectiveId.getD 0)
          [⟨"order_limit_on_email_" ++ eh ++ "_and_collective_" ++ cid,
            cfg.perEmailForCollective⟩]
        else [])
    else []) ++
    (if strT reqIp then
      [⟨"order_limit_on_ip_" ++ env.md5 (reqIp.getD ""), cfg.perIp⟩]
    else [])

/-- The check-then-increment loop of checkOrdersLimit (lines 75-91): the
counter is read, compared against the threshold, incremented regardless of
the outcome, and the attempt is rejected when the counter had already
reached the threshold before the attempt. -/
def runLimits (cache : List (String × Int)) :
    List LimitSpec → List (String × Int) × Option JsError
  | [] => (cache, none)
  | l :: ls =>
    let count := (cacheGet cache l.key).getD 0
    let limitReached := decide (l.value ≤ count)
    let cache' := cacheSet cache l.key (count + 1)
    if limitReached then (cache', some (gen limitErrMsg))
    else runLimits cache' ls

def checkOrdersLimit (env : Env) (inp : OrderInput) (reqIp : Option String)
    (cache : List (String × Int)) : List (String × Int) × Option JsError :=
  if env.nodeEnv = "circleci" ∨ env.nodeEnv = "test" then (cache, none)
  else runLimits cache (buildOrderLimits env inp reqIp)

/-- Cache evolution under repeated createOrder attempts with identical
parameters (attempt `n` runs against the cache left by attempt `n-1`). -/
def iterCache (env : Env) (inp : OrderInput) (reqIp : Option String) :
    Nat → List (String × Int)
  | 0 => []
  | n + 1 => (checkOrdersLimit env inp reqIp (iterCache env inp reqIp n)).1

/-! ## checkRecaptcha -/

def checkRecaptcha (env : Env) (inp : OrderInput) (ru : Option User)
    (reqIp : Option String) : Except JsError (Option String) :=
  if env.nodeEnv = "test" ∨ env.nodeEnv = "circleci" then .ok none
  else if !strT inp.recaptchaToken then
    if ru.isNone then
      .error (gen "Error while processing your request (Recaptcha token missing), please try again or contact support@opencollective.com")
    else .ok none
  else .ok (env.recaptchaVerify (inp.recaptchaToken.getD "") reqIp)

/-! ## createOrder: validation pipeline (lines 122-216) -/

/-- The GitHub pledge verification block (lines 140-170).  Note that for an
organization handle the repository listing is fetched with
`.catch(() => null)` and then `.find` is called on the result without a
null check, so a failed listing fetch raises a JS TypeError. -/
def githubCheck (env : Env) (ci : CollectiveInput) : Except JsError Unit :=
  if strT ci.githubHandle then
    let handle := ci.githubHandle.getD ""
    if handle.data.contains '/' then
      match env.getRepo handle with
      | none => .error (vf "We could not verify the GitHub repository")
      | some repo =>
        if repo.stargazers_count < 100 then
          .error (vf "The repository need at least 100 GitHub stars to be pledged.")
        else .ok ()
    else
      if env.getOrg handle then
        match env.getAllOrganizationPublicRepos handle with
        | none => .error typeErr
        | some repos =>
          match repos.find? (fun r => decide (100 ≤ r.stargazers_count)) with
          | none => .error (vf "The organization need at least one repository with 100 GitHub stars to be pledged.")
          | some _ => .ok ()
      else .error (vf "We could not verify the GitHub organization")
  else .ok ()

/-- Lines 122-216: saved-card authentication, target collective resolution
(including the GitHub pledge verification), privileged-fee authorization,
self-funding rejection and tier resolution. -/
def resolveTarget (env : Env) (inp : OrderInput) (ru : Option User) :
    Except JsError (Collective × Option Tier) :=
  let pmStripeSaved :=
    match inp.paymentMethod with
    | none => false
    | some pm => (pm.service = some "stripe" : Bool) && strT pm.uuid && ru.isNone
  if pmStripeSaved then
    .error (gen "You need to be logged in to be able to use a payment method on file")
  else
    match inp.collective with
    | none => .error (gen "No collective id/website/githubHandle provided")
    | some ci =>
      if !(intT ci.id || strT ci.website || strT ci.githubHandle) then
        .error (gen "No collective id/website/githubHandle provided")
      else if !(intT ci.id || strT ci.githubHandle) then
        .error (vf "An Open Collective id or a GitHub handle is mandatory.")
      else
        match githubCheck env ci with
        | .error e => .error e
        | .ok _ =>
          let platformFeeChk : Except JsError Unit :=
            if intT inp.platformFeePercent then
              match ru with
              | none => .error typeErr
              | some r =>
                if !r.isRoot then
                  .error (gen "Only a root can change the platformFeePercent")
                else .ok ()
            else .ok ()
          match platformFeeChk with
          | .error e => .error e
          | .ok _ =>
            let coll? : Option Collective :=
              if intT ci.id then env.loadCollective (ci.id.getD 0)
              else if strT ci.website then some (env.findOrCreateByWebsite ci)
              else if strT ci.githubHandle then some (env.findOrCreateByGithub ci)
              else none
            match coll? with
            | none => .error (gen "No collective found")
            | some collective =>
              if inp.fromCollective.isSome ∧
                  (inp.fromCollective.bind (fun f => f.id)) = some collective.id then
                .error (gen "Orders cannot be created for a collective by that same collective.")
              else
                let hostFeeChk : Except JsError Unit :=
                  if intT inp.hostFeePercent then
                    match ru with
                    | none => .error typeErr
                    | some r =>
                      if !jsIsAdminOpt r (env.hostOf collective.id) then
                        .error (gen "Only an admin of the host can change the hostFeePercent")
                      else .ok ()
                  else .ok ()
                match hostFeeChk with
                | .error e => .error e
                | .ok _ =>
                  match inp.tier with
                  | none => .ok (collective, none)
                  | some tid =>
                    match env.findTier tid with
                    | none =>
                      .error (gen ("No tier found with tier id: " ++ toString tid ++ " for collective slug " ++ collective.slug))
                    | some t => .ok (collective, some t)

/-- Line 218: `(order.totalAmount > 0 || (tier && tier.amount > 0)) && collective.isActive`. -/
def paymentRequiredFor (inp : OrderInput) (tier : Option Tier) (c : Collective) : Bool :=
  (jsPos inp.totalAmount ||
    (match tier with
     | some t => jsPos t.amount
     | none => false)) && c.isActive

/-- Lines 222-223: the payment reference is present when it carries an
existing-instrument uuid, a new token, or the explicit manual marker. -/
def pmPresent : Option PMInput → Bool
  | none => false
  | some p => strT p.uuid || strT p.token || (p.type = some "manual" : Bool)

/-- Line 228: the per-user quantity cap is violated (only when the cap is a
positive number, mirroring `tier.maxQuantityPerUser > 0`). -/
def capViolation (inp : OrderInput) : Option Tier → Bool
  | some tier =>
    match tier.maxQuantityPerUser with
    | some m => decide (0 < m) && jsGtI inp.quantity m
    | none => false
  | none => false

/-- Lines 234-239: tier inventory check. -/
def availabilityOK (inp : OrderInput) : Option Tier → Bool
  | some tier => tier.availableOK inp.quantity
  | none => true

/-- Modelled from the spec: `pluralize` lives in lib/utils which is not part
of this excerpt; the error message appends a plural s for counts above 1. -/
def pluralize (s : String) (n : Int) : String :=
  if 1 < n then s ++ "s" else s

/-- The fully resolved order draft: everything lines 218-366 compute before
the Order row is persisted. -/
structure Prep where
  collective : Collective
  tier : Option Tier
  user : User
  paymentRequired : Bool
  row : OrderRec

/-- Lines 218-366: payment-method requirement, quantity checks, user and
source-account resolution, matching fund, currency consistency, final
amount and the orderData literal (the row is created with id 0 here and
receives its real id when persisted). -/
def prepRest (env : Env) (inp : OrderInput) (ru : Option User)
    (_reqIp : Option String) (now : Nat) (c : Collective) (t : Option Tier) :
    Except JsError Prep :=
  let paymentRequired := paymentRequiredFor inp t c
  if paymentRequired && !pmPresent inp.paymentMethod then
    .error (gen "This order requires a payment method")
  else if capViolation inp t then
    let m := (t.bind (fun tier => tier.maxQuantityPerUser)).getD 0
    .error (gen ("You can buy up to " ++ toString m ++ " " ++ pluralize "ticket" m ++ " per person"))
  else if !availabilityOK inp t then
    .error (gen ("No more tickets left for " ++ ((t.map (fun tier => tier.name)).getD "")))
  else
    let userStep : Except JsError (Option User) :=
      if inp.user.isSome ∧ strT (inp.user.bind (fun u => u.email)) then
        if env.findUserByEmail ((inp.user.bind (fun u => u.email)).getD "") then
          .error (gen "An account already exists for this email address. Please login.")
        else .ok (some (env.createUserWithCollective (inp.user.getD {})))
      else match ru with
        | some r => .ok (some r)
        | none => .ok none
    match userStep with
    | .error e => .error e
    | .ok user? =>
      let fcStep : Except JsError (Option Collective) :=
        if inp.fromCollective.isNone ∨
            (!intT (inp.fromCollective.bind (fun f => f.id)) ∧
             !strT (inp.fromCollective.bind (fun f => f.name))) then
          match user? with
          | none => .error typeErr
          | some u => .ok (env.loadCollective u.CollectiveId)
        else .ok none
      match fcStep with
      | .error e => .error e
      | .ok fc0 =>
        let fcStep2 : Except JsError (Option Collective) :=
          if intT (inp.fromCollective.bind (fun f => f.id)) then
            match ru with
            | none => .error (gen "You need to be logged in to create an order for an existing open collective")
            | some r =>
              let fcid := (inp.fromCollective.bind (fun f => f.id)).getD 0
              match env.loadCollective fcid with
              | none => .error (gen ("From collective id " ++ toString fcid ++ " not found"))
              | some fc =>
                let possibleRoles :=
                  if fc.ctype = CollType.ORGANIZATION then
                    [Role.ADMIN, Role.HOST, Role.MEMBER]
                  else [Role.ADMIN, Role.HOST]
                if !r.hasRole possibleRoles fcid then
                  if !jsIsAdminOpt r (env.hostOf c.id) then
                    .error (gen ("You don\x27t have sufficient permissions to create an order on behalf of the " ++ fc.name ++ " collective"))
                  else .ok (some fc)
                else .ok (some fc)
          else .ok fc0
        match fcStep2 with
        | .error e => .error e
        | .ok fc? =>
          let fromCollective :=
            match fc? with
            | some fc => fc
            | none => env.createOrganization inp.fromCollective
          let mfStep : Except JsError (Option MatchingFund) :=
            match inp.matchingFund with
            | none => .ok none
            | some uuid =>
              match env.getMatchingFund uuid with
              | none => .error typeErr
              | some mf => .ok (if mf.canBeUsed then some mf else none)
          match mfStep with
          | .error e => .error e
          | .ok mf? =>
            let referral : Option Int :=
              match mf? with
              | some mf => some mf.CollectiveId
              | none => inp.referral
            let currency :=
              match t with
              | some tier => jsOrStr tier.currency c.currency
              | none => c.currency
            if strT inp.currency ∧ inp.currency ≠ some currency then
              .error (gen ("Invalid currency. Expected " ++ currency ++ "."))
            else
              let quantity := jsOrInt inp.quantity 1
              let totalAmount : Option Int :=
                match t with
                | some tier =>
                  if intT tier.amount ∧ !tier.presets then
                    some (tier.amount.getD 0 * quantity)
                  else inp.totalAmount
                | none => inp.totalAmount
              let tierNameInfo :=
                match t with
                | some tier => if tier.name.isEmpty then "" else " (" ++ tier.name ++ ")"
                | none => ""
              let defaultDescription :=
                if strT inp.interval then
                  (inp.interval.getD "").capitalize ++ "ly donation to " ++ c.name ++ tierNameInfo
                else
                  (if totalAmount = some 0 ∨ c.ctype = CollType.EVENT then "Registration" else "Donation")
                    ++ " to " ++ c.name ++ tierNameInfo
              match ru, user? with
              | _, none =>
                match ru with
                | none => .error typeErr
                | some r =>
                  .ok { collective := c, tier := t, user := r, paymentRequired,
                        row := {
                          id := 0
                          CreatedByUserId := r.id
                          FromCollectiveId := fromCollective.id
                          CollectiveId := c.id
                          TierId := t.map (fun tier => tier.id)
                          quantity := quantity
                          totalAmount := totalAmount
                          currency := currency
                          interval := inp.interval
                          description := jsOrStr inp.description defaultDescription
                          processedAt := if paymentRequired || !c.isActive then none else some now
                          status := OrderStatus.PENDING
                          SubscriptionId := none
                          ReferralCollectiveId :=
                            match referral with
                            | some rid => if rid ≠ 0 ∧ rid ≠ fromCollective.id then some rid else none
                            | none => none
                          MatchingPaymentMethodId := mf?.map (fun mf => mf.id)
                          PaymentMethodId := none } }
              | _, some u =>
                .ok { collective := c, tier := t, user := u, paymentRequired,
                      row := {
                        id := 0
                        CreatedByUserId :=
                          match ru with
                          | some r => r.id
                          | none => u.id
                        FromCollectiveId := fromCollective.id
                        CollectiveId := c.id
                        TierId := t.map (fun tier => tier.id)
                        quantity := quantity
                        totalAmount := totalAmount
                        currency := currency
                        interval := inp.interval
                        description := jsOrStr inp.description defaultDescription
                        processedAt := if paymentRequired || !c.isActive then none else some now
                        status := OrderStatus.PENDING
                        SubscriptionId := none
                        ReferralCollectiveId :=
                          match referral with
                          | some rid => if rid ≠ 0 ∧ rid ≠ fromCollective.id then some rid else none
                          | none => none
                        MatchingPaymentMethodId := mf?.map (fun mf => mf.id)
                        PaymentMethodId := none } }

/-! ## createOrder: execution after persistence (lines 370-430) -/

/-- `models.Order.create(orderData)`: the row receives a fresh id and is
appended to the store. -/
def createRow (s : St) (r : OrderRec) : St × OrderRec :=
  let o := { r with id := s.nextId }
  ({ s with nextId := s.nextId + 1, orders := s.orders ++ [o] }, o)

/-- Lines 415-422: re-fetch the order and grant the referral its
FUNDRAISER role (a property access on a null re-fetch raises TypeError). -/
def finishOrder (prep : Prep) (s : St) (oc : OrderRec) :
    St × OrderRec × Except JsError OrderRec :=
  match findOrd s.orders oc.id with
  | none => (s, oc, .error typeErr)
  | some o =>
    let s' :=
      match o.ReferralCollectiveId with
      | some r =>
        if r ≠ 0 ∧ r ≠ prep.user.CollectiveId then
          { s with members := s.members ++ [(prep.collective.id, r, Role.FUNDRAISER)] }
        else s
      | none => s
    (s', oc, .ok o)

/-- Lines 378-389: bind the payment method (a no-op for the manual
marker) and execute the charge, recording the charge in the trace. -/
def payBranch (env : Env) (inp : OrderInput) (prep : Prep) (s0 : St)
    (oc0 : OrderRec) : St × OrderRec × Except JsError OrderRec :=
  let step1 : Except JsError (St × OrderRec) :=
    if (inp.paymentMethod.bind (fun p => p.type)) = some "manual" then
      .ok (s0, oc0)
    else
      match env.setPaymentMethod oc0 inp.paymentMethod with
      | .error e => .error e
      | .ok o' =>
        let oc1 := { o' with id := oc0.id }
        .ok ({ s0 with orders := putOrd s0.orders oc1 }, oc1)
  match step1 with
  | .error e => (s0, oc0, .error e)
  | .ok (s1, oc1) =>
    match env.executeOrder oc1 with
    | .error e => (s1, oc1, .error e)
    | .ok o' =>
      let oc2 := { o' with id := oc1.id }
      let s2 := { s1 with orders := putOrd s1.orders oc2,
                          charges := s1.charges ++ [oc2.id] }
      finishOrder prep s2 oc2

/-- Lines 390-397: the dormant pledge Subscription. -/
def pledgeBranch (inp : OrderInput) (prep : Prep) (s0 : St) (oc0 : OrderRec) :
    St × OrderRec × Except JsError OrderRec :=
  let sub : SubRec := {
    id := s0.nextSubId
    amount := inp.totalAmount
    interval := inp.interval
    currency := inp.currency
    isActive := false
    nextChargeDate := none
    chargeRetryCount := 0
    activatedAt := none
    deactivatedAt := none }
  let oc1 := { oc0 with SubscriptionId := some sub.id }
  let s1 := { s0 with nextSubId := s0.nextSubId + 1,
                      subscriptions := s0.subscriptions ++ [sub],
                      orders := putOrd s0.orders oc1 }
  finishOrder prep s1 oc1

/-- Lines 398-413: the free-event fast path — mark PAID with processedAt,
grant the ATTENDEE role and emit the ticket-confirmation activity. -/
def eventBranch (env : Env) (ru : Option User) (prep : Prep) (s0 : St)
    (oc0 : OrderRec) : St × OrderRec × Except JsError OrderRec :=
  let oc1 := { oc0 with status := OrderStatus.PAID, processedAt := some s0.time }
  let s1 := { s0 with orders := putOrd s0.orders oc1 }
  let userId :=
    match ru with
    | some r => r.id
    | none => prep.user.id
  let s2 := { s1 with members := s1.members ++ [(prep.collective.id, prep.user.id, Role.ATTENDEE)] }
  let act : Activity := {
    akind := ActKind.TICKET_CONFIRMED
    CollectiveId := none
    UserId := none
    dataEventCollectiveId := some prep.collective.id
    dataUserId := some userId }
  match env.activityCreate act with
  | .error e => (s2, oc1, .error e)
  | .ok _ =>
    let s3 := { s2 with activities := s2.activities ++ [act] }
    finishOrder prep s3 oc1

/-- Lines 374-422, after the Order row has been persisted: bind the payment
method and execute the charge, or create the dormant pledge subscription,
or run the free-event fast path; then re-fetch and handle the referral.
The middle component of the result is the in-memory `orderCreated`
instance at the moment the function returns (used by the catch block). -/
def runCreated (env : Env) (inp : OrderInput) (ru : Option User) (prep : Prep)
    (s : St) : St × OrderRec × Except JsError OrderRec :=
  let (s0, oc0) := createRow s prep.row
  if prep.paymentRequired then
    payBranch env inp prep s0 oc0
  else if strT inp.interval ∧ prep.collective.ctype = CollType.COLLECTIVE then
    pledgeBranch inp prep s0 oc0
  else if prep.collective.ctype = CollType.EVENT then
    eventBranch env ru prep s0 oc0
  else
    finishOrder prep s0 oc0

/-- The createOrder mutation (lines 118-431): rate limiter, recaptcha, the
validation pipeline, persistence and execution, with the catch block that
marks the persisted order ERROR (only when `processedAt` is not set)
before re-raising the original error. -/
def createOrder (env : Env) (inp : OrderInput) (ru : Option User)
    (reqIp : Option String) (s : St) : St × Except JsError OrderRec :=
  match checkOrdersLimit env inp reqIp s.cache with
  | (c', some e) => ({ s with cache := c' }, .error e)
  | (c', none) =>
    let s := { s with cache := c' }
    match checkRecaptcha env inp ru reqIp with
    | .error e => (s, .error e)
    | .ok _ =>
      match resolveTarget env inp ru with
      | .error e => (s, .error e)
      | .ok (c, t) =>
        match prepRest env inp ru reqIp s.time c t with
        | .error e => (s, .error e)
        | .ok prep =>
          match runCreated env inp ru prep s with
          | (s', _, .ok o) => (s', .ok o)
          | (s', oc, .error e) =>
            if oc.processedAt.isNone then
              ({ s' with orders := putOrd s'.orders { oc with status := OrderStatus.ERROR } },
               .error e)
            else (s', .error e)

/-! ## updateOrder (lines 433-479) -/

structure UpdOrderInput where
  id : Int
  totalAmount : Option Int := none
  interval : Option String := none
  paymentMethod : Option PMInput := none
deriving DecidableEq, Repr

def updateOrder (env : Env) (ru : Option User) (inp : UpdOrderInput) (s : St) :
    St × Except JsError OrderRec :=
  match ru with
  | none => (s, .error ⟨ErrKind.unauthorized, "You need to be logged in to update an order"⟩)
  | some _ =>
    match findOrd s.orders inp.id with
    | none => (s, .error ⟨ErrKind.notFound, "Existing order not found"⟩)
    | some o =>
      match env.loadCollective o.CollectiveId with
      | none => (s, .error typeErr)
      | some c =>
        let paymentRequired := jsPos inp.totalAmount && c.isActive
        if paymentRequired && !pmPresent inp.paymentMethod then
          (s, .error (gen "This order requires a payment method"))
        else if paymentRequired then
          let o0 := { o with interval := inp.interval }
          let step : Except JsError (St × OrderRec) :=
            if (inp.paymentMethod.bind (fun p => p.type)) = some "manual" then
              .ok (s, o0)
            else
              match env.setPaymentMethod o0 inp.paymentMethod with
              | .error e => .error e
              | .ok o' =>
                let o1 := { o' with id := o.id }
                .ok ({ s with orders := putOrd s.orders o1 }, o1)
          match step with
          | .error e => (s, .error e)
          | .ok (s1, o1) =>
            match env.executeOrder o1 with
            | .error e => (s1, .error e)
            | .ok o' =>
              let o2 := { o' with id := o.id }
              let s2 := { s1 with orders := putOrd s1.orders o2,
                                  charges := s1.charges ++ [o.id] }
              match findOrd s2.orders inp.id with
              | some ox => (s2, .ok ox)
              | none => (s2, .error typeErr)
        else
          match findOrd s.orders inp.id with
          | some ox => (s, .ok ox)
          | none => (s, .error typeErr)

/-! ## cancelSubscription (lines 481-540) -/

def cancelSubscription (env : Env) (ru : Option User) (orderId : Int) (s : St) :
    St × Except JsError OrderRec :=
  match ru with
  | none => (s, .error ⟨ErrKind.unauthorized, "You need to be logged in to cancel a subscription"⟩)
  | some u =>
    match findOrd s.orders orderId with
    | none => (s, .error (gen "Subscription not found"))
    | some o =>
      if !u.isAdmin o.FromCollectiveId then
        (s, .error ⟨ErrKind.unauthorized, "You don\x27t have permission to cancel this subscription"⟩)
      else
        match o.SubscriptionId.bind (findSub s.subscriptions) with
        | none => (s, .error typeErr)
        | some sub =>
          if !sub.isActive ∧ o.status = OrderStatus.CANCELLED then
            (s, .error (gen "Subscription already canceled"))
          else
            let o1 := { o with status := OrderStatus.CANCELLED }
            let sub1 := { sub with isActive := false, deactivatedAt := some s.time }
            let s1 := { s with orders := putOrd s.orders o1,
                               subscriptions := putSub s.subscriptions sub1 }
            let act : Activity := {
              akind := ActKind.SUBSCRIPTION_CANCELED
              CollectiveId := some o.CollectiveId
              UserId := some o.CreatedByUserId }
            match env.activityCreate act with
            | .error e => (s1, .error e)
            | .ok _ =>
              let s2 := { s1 with activities := s1.activities ++ [act] }
              match findOrd s2.orders orderId with
              | some o' => (s2, .ok o')
              | none => (s2, .error typeErr)

/-! ## updateSubscription (lines 542-639) -/

structure SubArgs where
  id : Int
  paymentMethod : Option PMInput := none
  amount : Option Int := none
deriving DecidableEq, Repr

/-- Lines 572-606 of updateSubscription: resolve the new payment method
(existing-by-uuid or created from a stripe token), recompute the billing
dates when the subscription was past due, and bind the new instrument to
the order. -/
def pmUpdateStep (env : Env) (o : OrderRec) (sub : SubRec) :
    Option PMInput → St → Except JsError (St × OrderRec × SubRec)
  | none, s => .ok (s, o, sub)
  | some pm, s =>
    let newPm? : Except JsError Int :=
      if strT pm.uuid ∧ (pm.uuid.getD "").length = 36 then
        match env.findPMByUuid (pm.uuid.getD "") with
        | none => .error (gen "Payment method not found with this uuid")
        | some pmid => .ok pmid
      else env.createFromStripeToken pm
    match newPm? with
    | .error e => .error e
    | .ok pmid =>
      let (s1, sub1) :=
        if 0 < sub.chargeRetryCount then
          let sub' := { sub with
            nextChargeDate := env.updatedNextCharge o
            chargeRetryCount := env.updatedRetryCount o }
          ({ s with subscriptions := putSub s.subscriptions sub' }, sub')
        else (s, sub)
      let o1 := { o with PaymentMethodId := some pmid }
      .ok ({ s1 with orders := putOrd s1.orders o1 }, o1, sub1)

/-- Lines 608-638 of updateSubscription: the amount-change branch.  A same
or invalid amount is rejected; otherwise the old Subscription is
deactivated, the old Order is CANCELLED, and a fresh Subscription+Order
pair carrying the new amount is created (the new Order in PENDING). -/
def amountStep (a : SubArgs) (r : St × OrderRec × SubRec) :
    St × Except JsError OrderRec :=
  let (s1, o1, sub1) := r
  match a.amount with
  | none => (s1, .ok o1)
  | some amt =>
    if sub1.amount = some amt then
      (s1, .error (gen "Same amount"))
    else if amt < 100 ∨ amt % 100 ≠ 0 then
      (s1, .error (gen "Invalid amount"))
    else
      let sub2 := { sub1 with isActive := false, deactivatedAt := some s1.time }
      let s2 := { s1 with subscriptions := putSub s1.subscriptions sub2 }
      let o2 := { o1 with status := OrderStatus.CANCELLED }
      let s3 := { s2 with orders := putOrd s2.orders o2 }
      let newSub := { sub2 with
        id := s3.nextSubId
        deactivatedAt := none
        amount := some amt
        activatedAt := some s3.time
        isActive := true }
      let s4 := { s3 with nextSubId := s3.nextSubId + 1,
                          subscriptions := s3.subscriptions ++ [newSub] }
      let newOrd := { o2 with
        id := s4.nextId
        totalAmount := some amt
        SubscriptionId := some newSub.id
        status := OrderStatus.PENDING }
      let s5 := { s4 with nextId := s4.nextId + 1,
                          orders := s4.orders ++ [newOrd] }
      (s5, .ok newOrd)

def updateSubscription (env : Env) (ru : Option User) (a : SubArgs) (s : St) :
    St × Except JsError OrderRec :=
  match ru with
  | none => (s, .error ⟨ErrKind.unauthorized, "You need to be logged in to update a subscription"⟩)
  | some u =>
    match findOrd s.orders a.id with
    | none => (s, .error (gen "Subscription not found"))
    | some o =>
      if !u.isAdmin o.FromCollectiveId then
        (s, .error ⟨ErrKind.unauthorized, "You don\x27t have permission to update this subscription"⟩)
      else
        match o.SubscriptionId.bind (findSub s.subscriptions) with
        | none => (s, .error typeErr)
        | some sub =>
          if !sub.isActive then
            (s, .error (gen "Subscription must be active to be updated"))
          else
            match pmUpdateStep env o sub a.paymentMethod s with
            | .error e => (s, .error e)
            | .ok r => amountStep a r

/-! ## Store lemmas -/

/-! ## Concrete fixtures used by the witnesses -/

def dfltColl : Collective := ⟨0, CollType.COLLECTIVE, false, "USD", "x", "x"⟩

def dfltUser : User := ⟨0, 0, false, fun _ => false, fun _ _ => false⟩

/-- A concrete environment with inert collaborators, used by the witnesses
(the NODE_ENV "test" short-circuits the limiter and recaptcha, exactly as
in the source). -/
def baseEnv : Env := {
  nodeEnv := "test"
  ordersPerHour := ⟨10, 10, 10, 10, 10⟩
  md5 := fun s => s
  recaptchaVerify := fun _ _ => none
  getRepo := fun _ => none
  getOrg := fun _ => false
  getAllOrganizationPublicRepos := fun _ => none
  loadCollective := fun _ => none
  findOrCreateByWebsite := fun _ => dfltColl
  findOrCreateByGithub := fun _ => dfltColl
  hostOf := fun _ => none
  findTier := fun _ => none
  findUserByEmail := fun _ => false
  createUserWithCollective := fun _ => dfltUser
  createOrganization := fun _ => dfltColl
  getMatchingFund := fun _ => none
  setPaymentMethod := fun o _ => .ok o
  executeOrder := fun o => .ok o
  activityCreate := fun _ => .ok ()
  findPMByUuid := fun _ => none
  createFromStripeToken := fun _ => .error (gen "no token")
  updatedNextCharge := fun _ => none
  updatedRetryCount := fun _ => 0 }

def c2Env : Env :=
  { baseEnv with nodeEnv := "production", ordersPerHour := ⟨2, 10, 10, 10, 10⟩ }

def c2Inp : OrderInput := { fromCollective := some { id := some 7 } }

def st0 : St := ⟨1, 1, [], [], [], [], [], [], 0⟩

def c8Env : Env := { baseEnv with getOrg := fun _ => true }

def c8Inp : OrderInput := { collective := some { githubHandle := some "myorg" } }

def adminUser : User := ⟨1, 10, false, fun _ => true, fun _ _ => true⟩

def order1 : OrderRec := {
  id := 1
  CreatedByUserId := 1
  FromCollectiveId := 2
  CollectiveId := 3
  TierId := none
  quantity := 1
  totalAmount := some 500
  currency := "USD"
  interval := some "month"
  description := "d"
  processedAt := none
  status := OrderStatus.ACTIVE
  SubscriptionId := some 1
  ReferralCollectiveId := none
  MatchingPaymentMethodId := none
  PaymentMethodId := none }

def subInactive : SubRec := ⟨1, some 500, some "month", some "USD", false, none, 0, none, some 5⟩

def c9St : St := ⟨2, 2, [order1], [subInactive], [], [], [], [], 100⟩

def coll3 : Collective := ⟨3, CollType.COLLECTIVE, true, "USD", "c3", "c3"⟩

def c10Env : Env := { baseEnv with loadCollective := fun _ => some coll3 }

def subActive : SubRec := ⟨1, some 500, some "month", some "USD", true, some 200, 0, some 10, none⟩

def c7St : St := ⟨2, 2, [order1], [subActive], [], [], [], [], 100⟩

def c3Res : St × Except JsError OrderRec :=
  updateSubscription baseEnv (some adminUser) ⟨1, none, some 700⟩ c7St

def okOf (r : Except JsError OrderRec) (d : OrderRec) : OrderRec :=
  match r with
  | .ok o => o
  | .error _ => d

def c3Ord : OrderRec := okOf c3Res.2 order1

def coll5 : Collective := ⟨5, CollType.COLLECTIVE, true, "USD", "c5", "c5"⟩

def c5Env : Env := { baseEnv with loadCollective := fun _ => some coll5 }

def c5Inp : OrderInput := { collective := some { id := some 5 }, totalAmount := some 1000 }

def fcColl : Collective := ⟨10, CollType.USER, true, "USD", "fc", "fc"⟩

def c6Tier : Tier := ⟨9, none, false, none, some 0, "t", fun _ => true⟩

def c6Env : Env := { baseEnv with
  loadCollective := fun i => if i = 5 then some coll5 else some fcColl
  findTier := fun _ => some c6Tier }

def c6Inp : OrderInput := {
  collective := some { id := some 5 }
  tier := some 9
  quantity := some 5
  totalAmount := some 0 }

def c6bTier : Tier := ⟨9, none, false, none, some 3, "t", fun _ => true⟩

def c6bEnv : Env := { c6Env with findTier := fun _ => some c6bTier }

def prepOf (r : Except JsError Prep) (d : Prep) : Prep :=
  match r with
  | .ok p => p
  | .error _ => d

def dummyPrep : Prep := ⟨dfltColl, none, dfltUser, false, order1⟩

def c1Env : Env := { baseEnv with
  loadCollective := fun i => if i = 5 then some coll5 else some fcColl
  executeOrder := fun _ => .error (gen "charge declined") }

def c1Inp : OrderInput := {
  collective := some { id := some 5 }
  totalAmount := some 1000
  paymentMethod := some { token := some "tok_x" }
  description := some "dn" }

def c1Prep : Prep :=
  prepOf (prepRest c1Env c1Inp (some adminUser) none st0.time coll5 none) dummyPrep

def c1Run : St × OrderRec × Except JsError OrderRec :=
  runCreated c1Env c1Inp (some adminUser) c1Prep { st0 with cache := st0.cache }

def eventColl : Collective := ⟨5, CollType.EVENT, true, "USD", "ev", "ev"⟩

def c4Env : Env := { baseEnv with
  loadCollective := fun i => if i = 5 then some eventColl else some fcColl }

def c4Inp : OrderInput := { collective := some { id := some 5 }, totalAmount := some 0 }

theorem findOrd_id {l : List OrderRec} {i : Int} {x : OrderRec}
    (h : findOrd l i = some x) : x.id = i := by
  induction l with
  | nil => simp [findOrd] at h
  | cons hd tl ih =>
    by_cases hh : hd.id = i
    · simp [findOrd, hh] at h
      rw [← h]
      exact hh
    · simp [findOrd, hh] at h
      exact ih h

theorem findSub_id {l : List SubRec} {i : Int} {x : SubRec}
    (h : findSub l i = some x) : x.id = i := by
  induction l with
  | nil => simp [findSub] at h
  | cons hd tl ih =>
    by_cases hh : hd.id = i
    · simp [findSub, hh] at h
      rw [← h]
      exact hh
    · simp [findSub, hh] at h
      exact ih h

theorem findOrd_putOrd_eq {l : List OrderRec} {i : Int} {x : OrderRec}
    (h : findOrd l i = some x) (o : OrderRec) (hid : o.id = i) :
    findOrd (putOrd l o) i = some o := by
  induction l with
  | nil => simp [findOrd] at h
  | cons hd tl ih =>
    by_cases hh : hd.id = i
    · have : hd.id = o.id := by rw [hh, hid]
      simp [putOrd, this, findOrd, hid]
    · have : ¬(hd.id = o.id) := by rw [hid]; exact hh
      simp [findOrd, hh] at h
      simp [putOrd, this, findOrd, hh]
      exact ih h

theorem findSub_putSub_eq {l : List SubRec} {i : Int} {x : SubRec}
    (h : findSub l i = some x) (o : SubRec) (hid : o.id = i) :
    findSub (putSub l o) i = some o := by
  induction l with
  | nil => simp [findSub] at h
  | cons hd tl ih =>
    by_cases hh : hd.id = i
    · have : hd.id = o.id := by rw [hh, hid]
      simp [putSub, this, findSub, hid]
    · have : ¬(hd.id = o.id) := by rw [hid]; exact hh
      simp [findSub, hh] at h
      simp [putSub, this, findSub, hh]
      exact ih h

theorem findOrd_append_left {l1 : List OrderRec} {i : Int} {x : OrderRec}
    (h : findOrd l1 i = some x) (l2 : List OrderRec) :
    findOrd (l1 ++ l2) i = some x := by
  induction l1 with
  | nil => simp [findOrd] at h
  | cons hd tl ih =>
    by_cases hh : hd.id = i
    · simp [findOrd, hh] at h
      subst h
      simp [findOrd, hh]
    · simp [findOrd, hh] at h
      simp [findOrd, hh]
      exact ih h

theorem findSub_append_left {l1 : List SubRec} {i : Int} {x : SubRec}
    (h : findSub l1 i = some x) (l2 : List SubRec) :
    findSub (l1 ++ l2) i = some x := by
  induction l1 with
  | nil => simp [findSub] at h
  | cons hd tl ih =>
    by_cases hh : hd.id = i
    · simp [findSub, hh] at h
      subst h
      simp [findSub, hh]
    · simp [findSub, hh] at h
      simp [findSub, hh]
      exact ih h

theorem findOrd_append_fresh {l : List OrderRec} {n : Int}
    (h : ∀ o ∈ l, o.id ≠ n) (r : OrderRec) (hr : r.id = n) :
    findOrd (l ++ [r]) n = some r := by
  induction l with
  | nil => simp [findOrd, hr]
  | cons hd tl ih =>
    have hhd : hd.id ≠ n := h hd (List.mem_cons_self hd tl)
    simp only [List.cons_append, findOrd, hhd, if_false]
    exact ih (fun o ho => h o (List.mem_cons_of_mem hd ho))

theorem findSub_append_fresh {l : List SubRec} {n : Int}
    (h : ∀ o ∈ l, o.id ≠ n) (r : SubRec) (hr : r.id = n) :
    findSub (l ++ [r]) n = some r := by
  induction l with
  | nil => simp [findSub, hr]
  | cons hd tl ih =>
    have hhd : hd.id ≠ n := h hd (List.mem_cons_self hd tl)
    simp only [List.cons_append, findSub, hhd, if_false]
    exact ih (fun o ho => h o (List.mem_cons_of_mem hd ho))

theorem putOrd_ids {l : List OrderRec} (o : OrderRec) :
    ∀ x ∈ putOrd l o, ∃ y ∈ l, x.id = y.id := by
  induction l with
  | nil => simp [putOrd]
  | cons hd tl ih =>
    intro x hx
    simp only [putOrd, List.mem_cons] at hx
    rcases hx with hx | hx
    · by_cases hh : hd.id = o.id
      · simp [hh] at hx
        exact ⟨hd, List.mem_cons_self hd tl, by rw [hx, ← hh]⟩
      · simp [hh] at hx
        exact ⟨hd, List.mem_cons_self hd tl, by rw [hx]⟩
    · obtain ⟨y, hy, hxy⟩ := ih x hx
      exact ⟨y, List.mem_cons_of_mem hd hy, hxy⟩

theorem putSub_ids {l : List SubRec} (o : SubRec) :
    ∀ x ∈ putSub l o, ∃ y ∈ l, x.id = y.id := by
  induction l with
  | nil => simp [putSub]
  | cons hd tl ih =>
    intro x hx
    simp only [putSub, List.mem_cons] at hx
    rcases hx with hx | hx
    · by_cases hh : hd.id = o.id
      · simp [hh] at hx
        exact ⟨hd, List.mem_cons_self hd tl, by rw [hx, ← hh]⟩
      · simp [hh] at hx
        exact ⟨hd, List.mem_cons_self hd tl, by rw [hx]⟩
    · obtain ⟨y, hy, hxy⟩ := ih x hx
      exact ⟨y, List.mem_cons_of_mem hd hy, hxy⟩

theorem cacheGet_cacheSet_self (c : List (String × Int)) (k : String) (v : Int) :
    cacheGet (cacheSet c k v) k = some v := by
  induction c with
  | nil => simp [cacheSet, cacheGet]
  | cons hd tl ih =>
    by_cases hh : hd.1 = k
    · simp [cacheSet, hh, cacheGet]
    · simp [cacheSet, hh, cacheGet, ih]

/-! ## Rate limiter lemmas and claim C2 -/

/-- A single key's check: read, compare, increment (regardless of the
outcome), reject iff the counter had already reached the threshold. -/
theorem runLimits_single (cache : List (String × Int)) (l : LimitSpec) :
    runLimits cache [l] =
      (cacheSet cache l.key ((cacheGet cache l.key).getD 0 + 1),
       if l.value ≤ (cacheGet cache l.key).getD 0 then some (gen limitErrMsg) else none) := by
  by_cases h : l.value ≤ (cacheGet cache l.key).getD 0
  · simp [runLimits, h]
  · simp [runLimits, h]

/-- Claim C2 (rate limiter): a key whose counter has already reached the
threshold is rejected but still incremented (never capped); and for the
limits derived during order creation for an authenticated account with no
destination id (a single per-account key), the counter after j attempts is
exactly j and the (j+1)-th attempt passes iff j is below the threshold —
so the first N attempts pass and every later one is rejected, with no
mid-window reset. -/
theorem checkOrdersLimit_threshold (env : Env) (inp : OrderInput)
    (ip : Option String) (fc : FromCollectiveInput) (f : Int)
    (h1 : ¬(env.nodeEnv = "circleci" ∨ env.nodeEnv = "test"))
    (h2 : inp.collective = none) (h3 : inp.fromCollective = some fc)
    (h4 : fc.id = some f) (h5 : f ≠ 0) :
    (∀ (cache : List (String × Int)) (l : LimitSpec) (ls : List LimitSpec),
        l.value ≤ (cacheGet cache l.key).getD 0 →
        runLimits cache (l :: ls) =
          (cacheSet cache l.key ((cacheGet cache l.key).getD 0 + 1),
           some (gen limitErrMsg)))
    ∧ (∀ j : Nat,
        (cacheGet (iterCache env inp ip j) ("order_limit_on_account_" ++ toString f)).getD 0 = (j : Int)
        ∧ ((checkOrdersLimit env inp ip (iterCache env inp ip j)).2 = none ↔
            (j : Int) < env.ordersPerHour.perAccount)) := by
  constructor
  · intro cache l ls h
    simp [runLimits, h]
  · have hb : buildOrderLimits env inp ip =
        [⟨"order_limit_on_account_" ++ toString f, env.ordersPerHour.perAccount⟩] := by
      simp [buildOrderLimits, h2, h3, h4, intT, h5]
    have hcount : ∀ j : Nat,
        (cacheGet (iterCache env inp ip j) ("order_limit_on_account_" ++ toString f)).getD 0 = (j : Int) := by
      intro j
      induction j with
      | zero => simp [iterCache, cacheGet]
      | succ n ihn =>
        simp only [iterCache, checkOrdersLimit, h1, if_false, hb, runLimits_single, ihn]
        rw [cacheGet_cacheSet_self]
        simp
    intro j
    refine ⟨hcount j, ?_⟩
    simp only [checkOrdersLimit, h1, if_false, hb, runLimits_single, hcount j]
    rcases le_or_lt env.ordersPerHour.perAccount ((j : Nat) : Int) with hj | hj
    · simp [hj]
    · simp [hj]

/-- Witness for C2: with threshold 2, after 3 attempts the counter is 3 and
the 4th attempt is rejected; after 1 attempt the 2nd attempt passes. -/
theorem checkOrdersLimit_threshold_witness :
    ((cacheGet (iterCache c2Env c2Inp none 3) ("order_limit_on_account_" ++ toString (7 : Int))).getD 0 = ((3 : Nat) : Int)
      ∧ ((checkOrdersLimit c2Env c2Inp none (iterCache c2Env c2Inp none 3)).2 = none ↔
          ((3 : Nat) : Int) < c2Env.ordersPerHour.perAccount))
    ∧ ((cacheGet (iterCache c2Env c2Inp none 1) ("order_limit_on_account_" ++ toString (7 : Int))).getD 0 = ((1 : Nat) : Int)
      ∧ ((checkOrdersLimit c2Env c2Inp none (iterCache c2Env c2Inp none 1)).2 = none ↔
          ((1 : Nat) : Int) < c2Env.ordersPerHour.perAccount)) := by
  have h := checkOrdersLimit_threshold c2Env c2Inp none { id := some 7 } 7
    (by decide) rfl rfl rfl (by decide)
  exact ⟨h.2 3, h.2 1⟩

/-! ## Claim C8: GitHub pledge verification (code bug on fetch failure) -/

/-- Claim C8 (code bug): when the organization handle verifies but the
public-repository listing fetch fails (`getAllOrganizationPublicRepos`
rejects, which the source turns into `null` via `.catch(() => null)` and
then calls `.find` on), createOrder raises a JS TypeError instead of the
ValidationFailed that the dangling null-catch and the spec intend. -/
theorem createOrder_github_org_fetch_failure_typeerror :
    createOrder c8Env c8Inp none none st0 = (st0, .error typeErr)
    ∧ typeErr.kind = ErrKind.typeError
    ∧ typeErr.kind ≠ ErrKind.validationFailed := by
  refine ⟨rfl, rfl, by decide⟩

/-! ## Claim C9: updateSubscription rejects inactive subscriptions -/

/-- Claim C9: updateSubscription on an order whose Subscription is not
active rejects with an error and leaves the whole store untouched — no
payment-method or amount change is applied; when the caller is a
logged-in admin of the source account the error is exactly
"Subscription must be active to be updated". -/
theorem updateSubscription_inactive_rejected (env : Env) (ru : Option User)
    (a : SubArgs) (s : St) (o : OrderRec) (sub : SubRec)
    (h1 : findOrd s.orders a.id = some o)
    (h2 : o.SubscriptionId.bind (findSub s.subscriptions) = some sub)
    (h3 : sub.isActive = false) :
    (updateSubscription env ru a s).1 = s
    ∧ (∃ e, (updateSubscription env ru a s).2 = .error e)
    ∧ (∀ u, ru = some u → u.isAdmin o.FromCollectiveId = true →
        (updateSubscription env ru a s).2 =
          .error (gen "Subscription must be active to be updated")) := by
  cases ru with
  | none => simp [updateSubscription]
  | some u =>
    by_cases hA : u.isAdmin o.FromCollectiveId
    · refine ⟨?_, ?_, ?_⟩ <;>
        simp [updateSubscription, h1, h2, h3, hA]
    · refine ⟨?_, ?_, ?_⟩ <;>
        simp [updateSubscription, h1, h2, h3, hA]

/-- Witness for C9 at a concrete store. -/
theorem updateSubscription_inactive_rejected_witness :
    (updateSubscription baseEnv (some adminUser) ⟨1, none, some 600⟩ c9St).1 = c9St
    ∧ (updateSubscription baseEnv (some adminUser) ⟨1, none, some 600⟩ c9St).2 =
        .error (gen "Subscription must be active to be updated") := by
  have h := updateSubscription_inactive_rejected baseEnv (some adminUser)
    ⟨1, none, some 600⟩ c9St order1 subInactive rfl rfl rfl
  exact ⟨h.1, h.2.2 adminUser rfl rfl⟩

/-! ## Claim C10: updateOrder without required payment is a no-op -/

/-- Claim C10: when payment is not required (the submitted totalAmount is
not positive, or the destination collective is inactive), updateOrder
executes no charge, binds no payment method, persists nothing, and
returns the stored order row unchanged. -/
theorem updateOrder_no_payment_frame (env : Env) (ru : User) (inp : UpdOrderInput)
    (s : St) (o : OrderRec) (c : Collective)
    (h1 : findOrd s.orders inp.id = some o)
    (h2 : env.loadCollective o.CollectiveId = some c)
    (h3 : (jsPos inp.totalAmount && c.isActive) = false) :
    updateOrder env (some ru) inp s = (s, .ok o) := by
  simp [updateOrder, h1, h2, h3]

/-- Witness for C10: a zero-amount update against an active collective
returns the stored row and leaves the store untouched. -/
theorem updateOrder_no_payment_frame_witness :
    updateOrder c10Env (some adminUser) ⟨1, some 0, none, none⟩ c9St = (c9St, .ok order1) :=
  updateOrder_no_payment_frame c10Env adminUser ⟨1, some 0, none, none⟩ c9St order1 coll3
    rfl rfl rfl

theorem putOrd_length (l : List OrderRec) (o : OrderRec) :
    (putOrd l o).length = l.length := by
  induction l with
  | nil => simp [putOrd]
  | cons hd tl ih => simp [putOrd, ih]

theorem putSub_length (l : List SubRec) (o : SubRec) :
    (putSub l o).length = l.length := by
  induction l with
  | nil => simp [putSub]
  | cons hd tl ih => simp [putSub, ih]

/-! ## Claim C7: cancelSubscription -/

/-- Claim C7: cancelSubscription rejects a missing login and a requester
who is not an admin of the order's source account with Unauthorized and no
store change; an admin's attempt on an already-cancelled subscription
(inactive Subscription and CANCELLED Order, the state a prior cancellation
leaves) is rejected with no store change and hence no duplicate activity;
an admin's attempt on a live subscription deactivates the Subscription,
marks the Order CANCELLED, emits exactly one SUBSCRIPTION_CANCELED
activity and returns the cancelled order. -/
theorem cancelSubscription_spec (env : Env) (u : User) (oid : Int) (s : St)
    (o : OrderRec) (sub : SubRec)
    (h1 : findOrd s.orders oid = some o)
    (h2 : o.SubscriptionId.bind (findSub s.subscriptions) = some sub)
    (hact : ∀ a, env.activityCreate a = .ok ()) :
    (cancelSubscription env none oid s =
      (s, .error ⟨ErrKind.unauthorized, "You need to be logged in to cancel a subscription"⟩))
    ∧ (u.isAdmin o.FromCollectiveId = false →
        cancelSubscription env (some u) oid s =
          (s, .error ⟨ErrKind.unauthorized, "You don\x27t have permission to cancel this subscription"⟩))
    ∧ (u.isAdmin o.FromCollectiveId = true →
        sub.isActive = false → o.status = OrderStatus.CANCELLED →
        cancelSubscription env (some u) oid s =
          (s, .error (gen "Subscription already canceled")))
    ∧ (u.isAdmin o.FromCollectiveId = true →
        ¬(sub.isActive = false ∧ o.status = OrderStatus.CANCELLED) →
        (cancelSubscription env (some u) oid s).1.activities =
            s.activities ++
              [⟨ActKind.SUBSCRIPTION_CANCELED, some o.CollectiveId, some o.CreatedByUserId, none, none⟩]
        ∧ findOrd (cancelSubscription env (some u) oid s).1.orders oid =
            some { o with status := OrderStatus.CANCELLED }
        ∧ findSub (cancelSubscription env (some u) oid s).1.subscriptions sub.id =
            some { sub with isActive := false, deactivatedAt := some s.time }
        ∧ (cancelSubscription env (some u) oid s).2 =
            .ok { o with status := OrderStatus.CANCELLED }) := by
  obtain ⟨sid, hsid, hfs⟩ :
      ∃ sid, o.SubscriptionId = some sid ∧ findSub s.subscriptions sid = some sub := by
    cases hS : o.SubscriptionId with
    | none => rw [hS] at h2; simp at h2
    | some sid => exact ⟨sid, rfl, by rw [hS] at h2; simpa using h2⟩
  have hsubid : sub.id = sid := findSub_id hfs
  have hoid : o.id = oid := findOrd_id h1
  refine ⟨by simp [cancelSubscription], ?_, ?_, ?_⟩
  · intro hA
    simp [cancelSubscription, h1, hA]
  · intro hA hS hC
    simp [cancelSubscription, h1, h2, hA, hS, hC]
  · intro hA hNot
    have hguard : ¬((!sub.isActive) = true ∧ o.status = OrderStatus.CANCELLED) := by
      intro hh
      exact hNot ⟨by simpa using hh.1, hh.2⟩
    have hfo : findOrd (putOrd s.orders { o with status := OrderStatus.CANCELLED }) oid =
        some { o with status := OrderStatus.CANCELLED } :=
      findOrd_putOrd_eq h1 _ hoid
    have hfs2 : findSub (putSub s.subscriptions { sub with isActive := false, deactivatedAt := some s.time }) sub.id =
        some { sub with isActive := false, deactivatedAt := some s.time } := by
      have hfs' : findSub s.subscriptions sub.id = some sub := by rw [hsubid]; exact hfs
      exact findSub_putSub_eq hfs' _ rfl
    have hred : cancelSubscription env (some u) oid s =
        ({ s with orders := putOrd s.orders { o with status := OrderStatus.CANCELLED },
                  subscriptions := putSub s.subscriptions { sub with isActive := false, deactivatedAt := some s.time },
                  activities := s.activities ++
                    [⟨ActKind.SUBSCRIPTION_CANCELED, some o.CollectiveId, some o.CreatedByUserId, none, none⟩] },
         .ok { o with status := OrderStatus.CANCELLED }) := by
      simp [cancelSubscription, h1, h2, hA, hguard, hact, hfo]
      intro hS hC
      exact hNot ⟨hS, hC⟩
    rw [hred]
    exact ⟨rfl, hfo, hfs2, rfl⟩

/-- Witness for C7: cancelling a live subscription at a concrete store. -/
theorem cancelSubscription_spec_witness :
    (cancelSubscription baseEnv (some adminUser) 1 c7St).1.activities =
        c7St.activities ++
          [⟨ActKind.SUBSCRIPTION_CANCELED, some order1.CollectiveId, some order1.CreatedByUserId, none, none⟩]
    ∧ findOrd (cancelSubscription baseEnv (some adminUser) 1 c7St).1.orders 1 =
        some { order1 with status := OrderStatus.CANCELLED }
    ∧ findSub (cancelSubscription baseEnv (some adminUser) 1 c7St).1.subscriptions subActive.id =
        some { subActive with isActive := false, deactivatedAt := some c7St.time }
    ∧ (cancelSubscription baseEnv (some adminUser) 1 c7St).2 =
        .ok { order1 with status := OrderStatus.CANCELLED } := by
  have h := cancelSubscription_spec baseEnv adminUser 1 c7St order1 subActive rfl rfl
    (fun _ => rfl)
  exact h.2.2.2 rfl (by decide)

/-! ## Claim C3: updateSubscription amount update -/

/-- What the payment-method step of updateSubscription guarantees when it
succeeds: the subscription keeps its id and amount, the order keeps its
id, both stay findable, and no rows are created or destroyed. -/
theorem pmUpdateStep_ok {env : Env} {o : OrderRec} {sub : SubRec}
    {pm? : Option PMInput} {s s1 : St} {o1 : OrderRec} {sub1 : SubRec}
    (hfo : findOrd s.orders o.id = some o)
    (hfs : findSub s.subscriptions sub.id = some sub)
    (h : pmUpdateStep env o sub pm? s = .ok (s1, o1, sub1)) :
    sub1.amount = sub.amount ∧ sub1.id = sub.id ∧ o1.id = o.id
    ∧ o1.status = o.status ∧ o1.SubscriptionId = o.SubscriptionId
    ∧ findOrd s1.orders o.id = some o1
    ∧ findSub s1.subscriptions sub.id = some sub1
    ∧ s1.orders.length = s.orders.length
    ∧ s1.subscriptions.length = s.subscriptions.length
    ∧ s1.nextId = s.nextId ∧ s1.nextSubId = s.nextSubId ∧ s1.time = s.time
    ∧ (∀ x ∈ s1.orders, ∃ y ∈ s.orders, x.id = y.id)
    ∧ (∀ x ∈ s1.subscriptions, ∃ y ∈ s.subscriptions, x.id = y.id) := by
  cases pm? with
  | none =>
    simp only [pmUpdateStep] at h
    obtain ⟨rfl, rfl, rfl⟩ : s = s1 ∧ o = o1 ∧ sub = sub1 := by
      injection h with h'
      exact ⟨congrArg Prod.fst h', congrArg (fun p => p.2.1) h', congrArg (fun p => p.2.2) h'⟩
    refine ⟨rfl, rfl, rfl, rfl, rfl, hfo, hfs, rfl, rfl, rfl, rfl, rfl, ?_, ?_⟩
    · intro x hx; exact ⟨x, hx, rfl⟩
    · intro x hx; exact ⟨x, hx, rfl⟩
  | some pm =>
    simp only [pmUpdateStep] at h
    split at h
    · exact absurd h (by simp)
    · split at h
      · injection h with h'
        obtain ⟨rfl, rfl, rfl⟩ : _ ∧ _ ∧ _ :=
          ⟨congrArg Prod.fst h', congrArg (fun p => p.2.1) h', congrArg (fun p => p.2.2) h'⟩
        refine ⟨rfl, rfl, rfl, rfl, rfl, ?_, ?_, ?_, ?_, rfl, rfl, rfl, ?_, ?_⟩
        · exact findOrd_putOrd_eq hfo _ rfl
        · exact findSub_putSub_eq hfs _ rfl
        · simp [putOrd_length]
        · simp [putSub_length]
        · intro x hx
          simp only at hx
          exact putOrd_ids _ x hx
        · intro x hx
          simp only at hx
          exact putSub_ids _ x hx
      · injection h with h'
        obtain ⟨rfl, rfl, rfl⟩ : _ ∧ _ ∧ _ :=
          ⟨congrArg Prod.fst h', congrArg (fun p => p.2.1) h', congrArg (fun p => p.2.2) h'⟩
        refine ⟨rfl, rfl, rfl, rfl, rfl, ?_, hfs, ?_, rfl, rfl, rfl, rfl, ?_, ?_⟩
        · exact findOrd_putOrd_eq hfo _ rfl
        · simp [putOrd_length]
        · intro x hx
          simp only at hx
          exact putOrd_ids _ x hx
        · intro x hx; exact ⟨x, hx, rfl⟩

/-- Claim C3: for an updateSubscription call supplying an amount (the order
is found, its subscription active, the caller an admin of the source
account): an amount equal to the subscription's amount, below 100, or not
a multiple of 100 is rejected with an error and no Subscription or Order
row is created; and whenever the call succeeds, the returned order is a
new PENDING Order carrying the new amount, referencing a new active
Subscription with the new amount, while the old Subscription has been
deactivated and the old Order is CANCELLED. -/
theorem updateSubscription_amount_update (env : Env) (u : User) (a : SubArgs)
    (s : St) (o : OrderRec) (sub : SubRec) (amt : Int)
    (h1 : findOrd s.orders a.id = some o)
    (h2 : o.SubscriptionId.bind (findSub s.subscriptions) = some sub)
    (h3 : sub.isActive = true)
    (hA : u.isAdmin o.FromCollectiveId = true)
    (ham : a.amount = some amt)
    (hfreshO : ∀ x ∈ s.orders, x.id < s.nextId)
    (hfreshS : ∀ x ∈ s.subscriptions, x.id < s.nextSubId) :
    ((sub.amount = some amt ∨ amt < 100 ∨ amt % 100 ≠ 0) →
      (∃ e, (updateSubscription env (some u) a s).2 = .error e)
      ∧ (updateSubscription env (some u) a s).1.orders.length = s.orders.length
      ∧ (updateSubscription env (some u) a s).1.subscriptions.length = s.subscriptions.length)
    ∧ (∀ o', (updateSubscription env (some u) a s).2 = .ok o' →
        o'.totalAmount = some amt
        ∧ o'.status = OrderStatus.PENDING
        ∧ findOrd (updateSubscription env (some u) a s).1.orders o'.id = some o'
        ∧ (∃ ns, o'.SubscriptionId = some ns.id
            ∧ findSub (updateSubscription env (some u) a s).1.subscriptions ns.id = some ns
            ∧ ns.isActive = true ∧ ns.amount = some amt)
        ∧ (∃ os, findSub (updateSubscription env (some u) a s).1.subscriptions sub.id = some os
            ∧ os.isActive = false)
        ∧ (∃ oo, findOrd (updateSubscription env (some u) a s).1.orders o.id = some oo
            ∧ oo.status = OrderStatus.CANCELLED)) := by
  have hoid : o.id = a.id := findOrd_id h1
  have hfo' : findOrd s.orders o.id = some o := by rw [hoid]; exact h1
  obtain ⟨sid, hsid, hfs⟩ :
      ∃ sid, o.SubscriptionId = some sid ∧ findSub s.subscriptions sid = some sub := by
    cases hS : o.SubscriptionId with
    | none => rw [hS] at h2; simp at h2
    | some sid => exact ⟨sid, rfl, by rw [hS] at h2; simpa using h2⟩
  have hfs' : findSub s.subscriptions sub.id = some sub := by
    rw [findSub_id hfs]; exact hfs
  have hred : updateSubscription env (some u) a s =
      (match pmUpdateStep env o sub a.paymentMethod s with
       | .error e => (s, .error e)
       | .ok r => amountStep a r) := by
    simp [updateSubscription, h1, h2, hA, h3]
  cases hpm : pmUpdateStep env o sub a.paymentMethod s with
  | error e =>
    have hred2 : updateSubscription env (some u) a s = (s, .error e) := by
      rw [hred, hpm]
    constructor
    · intro _
      rw [hred2]
      exact ⟨⟨e, rfl⟩, rfl, rfl⟩
    · intro o' hok
      rw [hred2] at hok
      simp at hok
  | ok r =>
    obtain ⟨s1, o1, sub1⟩ := r
    obtain ⟨f1, f2, f3, f4, f5, f6, f7, f8, f9, f10, f11, f12, f13, f14⟩ :=
      pmUpdateStep_ok hfo' hfs' hpm
    have hred2 : updateSubscription env (some u) a s = amountStep a (s1, o1, sub1) := by
      rw [hred, hpm]
    rw [hred2]
    constructor
    · intro hbad
      by_cases hsame : sub1.amount = some amt
      · have hval : amountStep a (s1, o1, sub1) = (s1, .error (gen "Same amount")) := by
          simp only [amountStep, ham, if_pos hsame]
        rw [hval]
        exact ⟨⟨_, rfl⟩, f8, f9⟩
      · have hinv : amt < 100 ∨ amt % 100 ≠ 0 := by
          rcases hbad with hb | hb | hb
          · exact absurd (f1.trans hb) hsame
          · exact Or.inl hb
          · exact Or.inr hb
        have hval : amountStep a (s1, o1, sub1) = (s1, .error (gen "Invalid amount")) := by
          simp only [amountStep, ham, if_neg hsame, if_pos hinv]
        rw [hval]
        exact ⟨⟨_, rfl⟩, f8, f9⟩
    · intro o' hok
      by_cases hsame : sub1.amount = some amt
      · rw [show amountStep a (s1, o1, sub1) = (s1, .error (gen "Same amount")) from by
          simp only [amountStep, ham, if_pos hsame]] at hok
        simp at hok
      by_cases hinv : amt < 100 ∨ amt % 100 ≠ 0
      · rw [show amountStep a (s1, o1, sub1) = (s1, .error (gen "Invalid amount")) from by
          simp only [amountStep, ham, if_neg hsame, if_pos hinv]] at hok
        simp at hok
      simp only [amountStep, ham, if_neg hsame, if_neg hinv] at hok
      injection hok with hok'
      subst hok'
      refine ⟨rfl, rfl, ?_, ?_, ?_, ?_⟩
      · simp only [amountStep, ham, if_neg hsame, if_neg hinv]
        refine findOrd_append_fresh ?_ _ rfl
        intro x hx
        obtain ⟨y, hy, hxy⟩ := putOrd_ids _ x hx
        obtain ⟨z, hz, hyz⟩ := f13 y hy
        rw [hxy, hyz, f10]
        exact ne_of_lt (hfreshO z hz)
      · refine ⟨{ sub1 with
          id := s1.nextSubId
          deactivatedAt := none
          amount := some amt
          activatedAt := some s1.time
          isActive := true }, rfl, ?_, rfl, rfl⟩
        simp only [amountStep, ham, if_neg hsame, if_neg hinv]
        refine findSub_append_fresh ?_ _ rfl
        intro x hx
        obtain ⟨y, hy, hxy⟩ := putSub_ids _ x hx
        obtain ⟨z, hz, hyz⟩ := f14 y hy
        rw [hxy, hyz, f11]
        exact ne_of_lt (hfreshS z hz)
      · refine ⟨{ sub1 with isActive := false, deactivatedAt := some s1.time }, ?_, rfl⟩
        simp only [amountStep, ham, if_neg hsame, if_neg hinv]
        exact findSub_append_left (findSub_putSub_eq f7 { sub1 with isActive := false, deactivatedAt := some s1.time } f2) _
      · refine ⟨{ o1 with status := OrderStatus.CANCELLED }, ?_, rfl⟩
        simp only [amountStep, ham, if_neg hsame, if_neg hinv]
        exact findOrd_append_left (findOrd_putOrd_eq f6 { o1 with status := OrderStatus.CANCELLED } f3) _

/-- Witness for C3: raising a concrete subscription from 500 to 700. -/
theorem updateSubscription_amount_update_witness :
    c3Ord.totalAmount = some 700
    ∧ c3Ord.status = OrderStatus.PENDING
    ∧ findOrd c3Res.1.orders c3Ord.id = some c3Ord
    ∧ (∃ ns, c3Ord.SubscriptionId = some ns.id
        ∧ findSub c3Res.1.subscriptions ns.id = some ns
        ∧ ns.isActive = true ∧ ns.amount = some 700)
    ∧ (∃ os, findSub c3Res.1.subscriptions subActive.id = some os ∧ os.isActive = false)
    ∧ (∃ oo, findOrd c3Res.1.orders order1.id = some oo ∧ oo.status = OrderStatus.CANCELLED) := by
  have h := (updateSubscription_amount_update baseEnv adminUser ⟨1, none, some 700⟩
    c7St order1 subActive 700 rfl rfl rfl rfl rfl
    (by decide) (by decide)).2 c3Ord rfl
  exact h

/-! ## Claim C5: payment requirement and missing payment method -/

/-- Claim C5: payment is required exactly when (totalAmount > 0 or the
resolved tier's amount > 0) and the destination collective is active; and
for every createOrder call (with the limiter, recaptcha and target
resolution passing) where payment is required and the supplied payment
reference carries neither an existing-instrument uuid, nor a new token,
nor the manual marker, the call fails with the payment-method-required
error, no Order row is created and no charge is executed. -/
theorem createOrder_payment_method_required (env : Env) (inp : OrderInput)
    (ru : Option User) (ip : Option String) (s : St) (c : Collective)
    (t : Option Tier) (cache' : List (String × Int))
    (hlim : checkOrdersLimit env inp ip s.cache = (cache', none))
    (hrc : ∃ r, checkRecaptcha env inp ru ip = .ok r)
    (hrt : resolveTarget env inp ru = .ok (c, t)) :
    (paymentRequiredFor inp t c = true ↔
      ((jsPos inp.totalAmount = true ∨ ∃ tier, t = some tier ∧ jsPos tier.amount = true)
        ∧ c.isActive = true))
    ∧ (paymentRequiredFor inp t c = true → pmPresent inp.paymentMethod = false →
        createOrder env inp ru ip s =
          ({ s with cache := cache' }, .error (gen "This order requires a payment method"))
        ∧ (createOrder env inp ru ip s).1.orders = s.orders
        ∧ (createOrder env inp ru ip s).1.charges = s.charges) := by
  constructor
  · cases t with
    | none => simp [paymentRequiredFor]
    | some tier =>
      simp only [paymentRequiredFor, Bool.and_eq_true, Bool.or_eq_true]
      constructor
      · rintro ⟨h1, h2⟩
        refine ⟨?_, h2⟩
        rcases h1 with h1 | h1
        · exact Or.inl h1
        · exact Or.inr ⟨tier, rfl, h1⟩
      · rintro ⟨h1, h2⟩
        refine ⟨?_, h2⟩
        rcases h1 with h1 | ⟨tier', htier, h1⟩
        · exact Or.inl h1
        · cases htier
          exact Or.inr h1
  · intro hreq hpm
    obtain ⟨r, hr⟩ := hrc
    have hpp : (paymentRequiredFor inp t c && !pmPresent inp.paymentMethod) = true := by
      rw [hreq, hpm]
      rfl
    have hpre : ∀ now, prepRest env inp ru ip now c t =
        .error (gen "This order requires a payment method") := by
      intro now
      simp only [prepRest, hpp, if_pos]
    have hfin : createOrder env inp ru ip s =
        ({ s with cache := cache' }, .error (gen "This order requires a payment method")) := by
      simp [createOrder, hlim, hr, hrt, hpre]
    exact ⟨hfin, by rw [hfin], by rw [hfin]⟩

/-- Witness for C5: a 1000-unit order on an active collective with no
payment method is rejected and nothing is persisted. -/
theorem createOrder_payment_method_required_witness :
    createOrder c5Env c5Inp (some adminUser) none st0 =
      (st0, .error (gen "This order requires a payment method"))
    ∧ (createOrder c5Env c5Inp (some adminUser) none st0).1.orders = st0.orders
    ∧ (createOrder c5Env c5Inp (some adminUser) none st0).1.charges = st0.charges := by
  have h := (createOrder_payment_method_required c5Env c5Inp (some adminUser) none st0
    coll5 none st0.cache rfl ⟨none, rfl⟩ rfl).2 rfl rfl
  exact h

/-! ## Claim C6: per-user quantity cap -/

/-- Counterexample to claim C6 as stated: the tier resolves with
`maxQuantityPerUser = 0` and the requested quantity 5 exceeds that field,
yet the operation succeeds, because the source only enforces the cap when
`tier.maxQuantityPerUser > 0` (line 228). -/
theorem createOrder_quantity_cap_counterexample :
    c6Inp.tier = some 9
    ∧ c6Env.findTier 9 = some c6Tier
    ∧ c6Tier.maxQuantityPerUser = some 0
    ∧ c6Inp.quantity = some 5
    ∧ ((0 : Int) < 5)
    ∧ (∃ o, (createOrder c6Env c6Inp (some adminUser) none st0).2 = .ok o) := by
  refine ⟨rfl, rfl, rfl, rfl, by decide, ⟨okOf (createOrder c6Env c6Inp (some adminUser) none st0).2 order1, rfl⟩⟩

/-- Claim C6 as amended: when the resolved tier's maxQuantityPerUser is a
positive m and the requested quantity exceeds m (the limiter, recaptcha
and target resolution passing), createOrder always fails; and whenever
the payment-method presence requirement is met (or payment is not
required), the error is precisely the quantity-limit error — in
particular the failure never depends on whether the payment method could
actually be charged. -/
theorem createOrder_quantity_cap_amended (env : Env) (inp : OrderInput)
    (ru : Option User) (ip : Option String) (s : St) (c : Collective)
    (tier : Tier) (m q : Int) (cache' : List (String × Int))
    (hlim : checkOrdersLimit env inp ip s.cache = (cache', none))
    (hrc : ∃ r, checkRecaptcha env inp ru ip = .ok r)
    (hrt : resolveTarget env inp ru = .ok (c, some tier))
    (hm : tier.maxQuantityPerUser = some m) (hmpos : 0 < m)
    (hq : inp.quantity = some q) (hgt : m < q) :
    (∃ e, (createOrder env inp ru ip s).2 = .error e)
    ∧ ((paymentRequiredFor inp (some tier) c = false ∨ pmPresent inp.paymentMethod = true) →
        createOrder env inp ru ip s =
          ({ s with cache := cache' },
           .error (gen ("You can buy up to " ++ toString m ++ " " ++ pluralize "ticket" m ++ " per person")))) := by
  obtain ⟨r, hr⟩ := hrc
  have hcap : capViolation inp (some tier) = true := by
    simp [capViolation, hm, hq, jsGtI, hmpos, hgt]
  by_cases hpp : (paymentRequiredFor inp (some tier) c && !pmPresent inp.paymentMethod) = true
  · have hpre : ∀ now, prepRest env inp ru ip now c (some tier) =
        .error (gen "This order requires a payment method") := by
      intro now
      simp only [prepRest, hpp, if_pos]
    have hfin : createOrder env inp ru ip s =
        ({ s with cache := cache' }, .error (gen "This order requires a payment method")) := by
      simp [createOrder, hlim, hr, hrt, hpre]
    constructor
    · exact ⟨_, by rw [hfin]⟩
    · intro hor
      exfalso
      simp only [Bool.and_eq_true, Bool.not_eq_true'] at hpp
      rcases hor with hor | hor
      · rw [hor] at hpp
        exact absurd hpp.1 (by simp)
      · rw [hor] at hpp
        exact absurd hpp.2 (by simp)
  · have hpp' : (paymentRequiredFor inp (some tier) c && !pmPresent inp.paymentMethod) = false := by
      revert hpp
      cases paymentRequiredFor inp (some tier) c && !pmPresent inp.paymentMethod <;> simp
    have hpre : ∀ now, prepRest env inp ru ip now c (some tier) =
        .error (gen ("You can buy up to " ++ toString m ++ " " ++ pluralize "ticket" m ++ " per person")) := by
      intro now
      simp only [prepRest, hpp', Bool.false_eq_true, if_false, hcap, if_pos, hm]
      simp [hm]
    have hfin : createOrder env inp ru ip s =
        ({ s with cache := cache' },
         .error (gen ("You can buy up to " ++ toString m ++ " " ++ pluralize "ticket" m ++ " per person"))) := by
      simp [createOrder, hlim, hr, hrt, hpre]
    exact ⟨⟨_, by rw [hfin]⟩, fun _ => hfin⟩

/-- Witness for the amended C6: cap 3, quantity 5, free order — rejected
with the quantity-limit error. -/
theorem createOrder_quantity_cap_amended_witness :
    createOrder c6bEnv c6Inp (some adminUser) none st0 =
      (st0, .error (gen ("You can buy up to " ++ toString (3 : Int) ++ " " ++ pluralize "ticket" 3 ++ " per person"))) := by
  have h := (createOrder_quantity_cap_amended c6bEnv c6Inp (some adminUser) none st0
    coll5 c6bTier 3 5 st0.cache rfl ⟨none, rfl⟩ rfl rfl (by decide) rfl (by decide)).2
    (Or.inl rfl)
  exact h

/-! ## Claim C1: the catch block of createOrder -/

/-- The in-memory `orderCreated` instance returned by finishOrder is the
stored row. -/
theorem finishOrder_finds (prep : Prep) (s : St) (oc : OrderRec)
    (h : findOrd s.orders oc.id = some oc) :
    findOrd (finishOrder prep s oc).1.orders (finishOrder prep s oc).2.1.id =
      some (finishOrder prep s oc).2.1 := by
  simp only [finishOrder, h]
  cases hR : oc.ReferralCollectiveId with
  | none => simpa using h
  | some rr =>
    by_cases hc : rr ≠ 0 ∧ rr ≠ prep.user.CollectiveId
    · simpa [hc] using h
    · simpa [hc] using h

theorem payBranch_finds (env : Env) (inp : OrderInput) (prep : Prep) (s0 : St)
    (oc0 : OrderRec) (h : findOrd s0.orders oc0.id = some oc0) :
    findOrd (payBranch env inp prep s0 oc0).1.orders
        (payBranch env inp prep s0 oc0).2.1.id =
      some (payBranch env inp prep s0 oc0).2.1 := by
  unfold payBranch
  by_cases hman : (inp.paymentMethod.bind (fun p => p.type)) = some "manual"
  · simp only [if_pos hman]
    cases hex : env.executeOrder oc0 with
    | error e => simpa using h
    | ok o' =>
      simp only [hex]
      exact finishOrder_finds _ _ _ (findOrd_putOrd_eq h _ rfl)
  · simp only [if_neg hman]
    cases hsp : env.setPaymentMethod oc0 inp.paymentMethod with
    | error e =>
      simp only [hsp]
      simpa using h
    | ok o1 =>
      simp only [hsp]
      have h1 : findOrd (putOrd s0.orders { o1 with id := oc0.id }) oc0.id =
          some { o1 with id := oc0.id } := findOrd_putOrd_eq h _ rfl
      cases hex : env.executeOrder { o1 with id := oc0.id } with
      | error e =>
        simp only [hex]
        simpa using h1
      | ok o2 =>
        simp only [hex]
        exact finishOrder_finds _ _ _ (findOrd_putOrd_eq h1 _ rfl)

theorem pledgeBranch_finds (inp : OrderInput) (prep : Prep) (s0 : St)
    (oc0 : OrderRec) (h : findOrd s0.orders oc0.id = some oc0) :
    findOrd (pledgeBranch inp prep s0 oc0).1.orders
        (pledgeBranch inp prep s0 oc0).2.1.id =
      some (pledgeBranch inp prep s0 oc0).2.1 := by
  unfold pledgeBranch
  exact finishOrder_finds _ _ _ (findOrd_putOrd_eq h _ rfl)

theorem eventBranch_finds (env : Env) (ru : Option User) (prep : Prep) (s0 : St)
    (oc0 : OrderRec) (h : findOrd s0.orders oc0.id = some oc0) :
    findOrd (eventBranch env ru prep s0 oc0).1.orders
        (eventBranch env ru prep s0 oc0).2.1.id =
      some (eventBranch env ru prep s0 oc0).2.1 := by
  have h1 : findOrd (putOrd s0.orders { oc0 with status := OrderStatus.PAID, processedAt := some s0.time }) oc0.id =
      some { oc0 with status := OrderStatus.PAID, processedAt := some s0.time } :=
    findOrd_putOrd_eq h _ rfl
  simp only [eventBranch]
  split
  · simpa using h1
  · exact finishOrder_finds _ _ _ h1

/-- At every exit of runCreated, the in-memory `orderCreated` instance
agrees with the stored row it denotes. -/
theorem runCreated_finds (env : Env) (inp : OrderInput) (ru : Option User)
    (prep : Prep) (s : St) (hfresh : ∀ x ∈ s.orders, x.id < s.nextId) :
    findOrd (runCreated env inp ru prep s).1.orders
        (runCreated env inp ru prep s).2.1.id =
      some (runCreated env inp ru prep s).2.1 := by
  have hbase : findOrd (s.orders ++ [{ prep.row with id := s.nextId }])
      ({ prep.row with id := s.nextId } : OrderRec).id =
      some { prep.row with id := s.nextId } :=
    findOrd_append_fresh (fun o ho => ne_of_lt (hfresh o ho)) _ rfl
  simp only [runCreated, createRow]
  split
  · exact payBranch_finds _ _ _ _ _ hbase
  · split
    · exact pledgeBranch_finds _ _ _ _ hbase
    · split
      · exact eventBranch_finds _ _ _ _ _ hbase
      · exact finishOrder_finds _ _ _ hbase

/-- Claim C1: once the Order row has been persisted, any error raised later
in createOrder is re-raised to the caller; if the order's processedAt is
not set at that moment the stored row's status is updated to ERROR, and if
processedAt is already set the store is left exactly as the failing run
left it (the status in particular unchanged). -/
theorem createOrder_error_marks_order (env : Env) (inp : OrderInput)
    (ru : Option User) (ip : Option String) (s : St) (c : Collective)
    (t : Option Tier) (prep : Prep) (cache' : List (String × Int))
    (s' : St) (oc : OrderRec) (e : JsError)
    (hlim : checkOrdersLimit env inp ip s.cache = (cache', none))
    (hrc : ∃ r, checkRecaptcha env inp ru ip = .ok r)
    (hrt : resolveTarget env inp ru = .ok (c, t))
    (hpr : prepRest env inp ru ip s.time c t = .ok prep)
    (hrun : runCreated env inp ru prep { s with cache := cache' } = (s', oc, .error e))
    (hfresh : ∀ x ∈ s.orders, x.id < s.nextId) :
    ((createOrder env inp ru ip s).2 = .error e)
    ∧ findOrd s'.orders oc.id = some oc
    ∧ (oc.processedAt = none →
        createOrder env inp ru ip s =
          ({ s' with orders := putOrd s'.orders { oc with status := OrderStatus.ERROR } }, .error e)
        ∧ findOrd (putOrd s'.orders { oc with status := OrderStatus.ERROR }) oc.id =
            some { oc with status := OrderStatus.ERROR })
    ∧ (oc.processedAt ≠ none → createOrder env inp ru ip s = (s', .error e)) := by
  obtain ⟨r, hr⟩ := hrc
  have hinv : findOrd s'.orders oc.id = some oc := by
    have hh := runCreated_finds env inp ru prep { s with cache := cache' } hfresh
    rw [hrun] at hh
    exact hh
  have hco : createOrder env inp ru ip s =
      (if oc.processedAt.isNone then
        ({ s' with orders := putOrd s'.orders { oc with status := OrderStatus.ERROR } }, .error e)
      else (s', .error e)) := by
    simp [createOrder, hlim, hr, hrt, hpr, hrun]
  refine ⟨?_, hinv, ?_, ?_⟩
  · rw [hco]
    split
    · rfl
    · rfl
  · intro hnone
    have hn : oc.processedAt.isNone = true := by rw [hnone]; rfl
    rw [hco, if_pos hn]
    exact ⟨rfl, findOrd_putOrd_eq hinv _ rfl⟩
  · intro hsome
    have hn : ¬(oc.processedAt.isNone = true) := by
      cases hp : oc.processedAt with
      | none => exact absurd hp hsome
      | some v => simp [hp]
    rw [hco, if_neg hn]

/-- Witness for C1: the payment provider declines the charge after the row
was persisted; the stored row ends up with status ERROR and the provider
error is re-raised. -/
theorem createOrder_error_marks_order_witness :
    ((createOrder c1Env c1Inp (some adminUser) none st0).2 = .error (gen "charge declined"))
    ∧ findOrd c1Run.1.orders c1Run.2.1.id = some c1Run.2.1
    ∧ (c1Run.2.1.processedAt = none →
        createOrder c1Env c1Inp (some adminUser) none st0 =
          ({ c1Run.1 with orders := putOrd c1Run.1.orders { c1Run.2.1 with status := OrderStatus.ERROR } },
           .error (gen "charge declined"))
        ∧ findOrd (putOrd c1Run.1.orders { c1Run.2.1 with status := OrderStatus.ERROR }) c1Run.2.1.id =
            some { c1Run.2.1 with status := OrderStatus.ERROR })
    ∧ (c1Run.2.1.processedAt ≠ none →
        createOrder c1Env c1Inp (some adminUser) none st0 = (c1Run.1, .error (gen "charge declined"))) :=
  createOrder_error_marks_order c1Env c1Inp (some adminUser) none st0 coll5 none
    c1Prep st0.cache c1Run.1 c1Run.2.1 (gen "charge declined")
    rfl ⟨none, rfl⟩ rfl rfl rfl (by decide)

/-! ## Claim C4: free ticket on an event collective -/

/-- Claim C4: a createOrder call with totalAmount 0 (and no tier amount
making payment required) on an EVENT-type destination succeeds with no
payment method supplied; the resulting order is PAID with processedAt
set, the acting user receives the ATTENDEE role on the event collective,
and exactly one TICKET_CONFIRMED activity record is emitted. -/
theorem createOrder_free_event (env : Env) (inp : OrderInput) (u : User)
    (ip : Option String) (s : St) (c : Collective) (t : Option Tier)
    (fc : Collective) (cache' : List (String × Int))
    (hlim : checkOrdersLimit env inp ip s.cache = (cache', none))
    (hrc : ∃ r, checkRecaptcha env inp (some u) ip = .ok r)
    (hrt : resolveTarget env inp (some u) = .ok (c, t))
    (hev : c.ctype = CollType.EVENT)
    (hta : inp.totalAmount = some 0)
    (ht : ∀ tier, t = some tier → jsPos tier.amount = false)
    (_hpm : inp.paymentMethod = none)
    (hcap : capViolation inp t = false)
    (hav : availabilityOK inp t = true)
    (huser : inp.user = none)
    (hfc : inp.fromCollective = none)
    (_hfcl : env.loadCollective u.CollectiveId = some fc)
    (hmf : inp.matchingFund = none)
    (hcur : inp.currency = none)
    (href : inp.referral = none)
    (hact : ∀ a, env.activityCreate a = .ok ())
    (hfresh : ∀ x ∈ s.orders, x.id < s.nextId) :
    ∃ o, (createOrder env inp (some u) ip s).2 = .ok o
      ∧ o.status = OrderStatus.PAID
      ∧ o.processedAt = some s.time
      ∧ (c.id, u.id, Role.ATTENDEE) ∈ (createOrder env inp (some u) ip s).1.members
      ∧ ∃ a ∈ (createOrder env inp (some u) ip s).1.activities,
          a.akind = ActKind.TICKET_CONFIRMED := by
  obtain ⟨r, hr⟩ := hrc
  have hreq : paymentRequiredFor inp t c = false := by
    cases t with
    | none => simp [paymentRequiredFor, hta, jsPos]
    | some tier =>
      simp [paymentRequiredFor, hta, ht tier rfl, show jsPos (some 0) = false from rfl]
  have hpre : ∃ prep, prepRest env inp (some u) ip s.time c t = .ok prep
      ∧ prep.paymentRequired = false ∧ prep.collective = c ∧ prep.user = u
      ∧ prep.row.ReferralCollectiveId = none := by
    simp only [prepRest, hreq, hcap, hav, huser, hfc, _hfcl, hmf, hcur, href,
      Bool.false_and, Bool.false_eq_true, if_false, Bool.not_false, intT, strT,
      Option.bind_none, Option.isSome_none, Option.isNone_none, Option.bind]
    simp
  obtain ⟨prep, hpr, hpReq, hpColl, hpUser, hpRef⟩ := hpre
  obtain ⟨pc, pt, pu, ppr, prow⟩ := prep
  obtain ⟨oid, ocb, ofcid, ocid, otid, oq, ota, ocur, oitv, odesc, opa, ost, osub, oref, ompm, opm⟩ := prow
  dsimp only at hpReq hpColl hpUser hpRef hpr
  rw [hpReq, hpColl, hpUser, hpRef] at hpr
  have hbase : findOrd (s.orders ++ [(⟨s.nextId, ocb, ofcid, ocid, otid, oq, ota, ocur, oitv, odesc, opa, ost, osub, none, ompm, opm⟩ : OrderRec)]) s.nextId = some (⟨s.nextId, ocb, ofcid, ocid, otid, oq, ota, ocur, oitv, odesc, opa, ost, osub, none, ompm, opm⟩ : OrderRec) :=
    findOrd_append_fresh (fun o ho => ne_of_lt (hfresh o ho)) _ rfl
  have hfound : findOrd (putOrd (s.orders ++ [(⟨s.nextId, ocb, ofcid, ocid, otid, oq, ota, ocur, oitv, odesc, opa, ost, osub, none, ompm, opm⟩ : OrderRec)]) (⟨s.nextId, ocb, ofcid, ocid, otid, oq, ota, ocur, oitv, odesc, some s.time, OrderStatus.PAID, osub, none, ompm, opm⟩ : OrderRec)) s.nextId = some (⟨s.nextId, ocb, ofcid, ocid, otid, oq, ota, ocur, oitv, odesc, some s.time, OrderStatus.PAID, osub, none, ompm, opm⟩ : OrderRec) :=
    findOrd_putOrd_eq hbase _ rfl
  have hrun : runCreated env inp (some u) (⟨c, pt, u, false, (⟨oid, ocb, ofcid, ocid, otid, oq, ota, ocur, oitv, odesc, opa, ost, osub, none, ompm, opm⟩ : OrderRec)⟩ : Prep) { s with cache := cache' } =
      eventBranch env (some u) (⟨c, pt, u, false, (⟨oid, ocb, ofcid, ocid, otid, oq, ota, ocur, oitv, odesc, opa, ost, osub, none, ompm, opm⟩ : OrderRec)⟩ : Prep)
        { s with cache := cache', nextId := s.nextId + 1, orders := s.orders ++ [(⟨s.nextId, ocb, ofcid, ocid, otid, oq, ota, ocur, oitv, odesc, opa, ost, osub, none, ompm, opm⟩ : OrderRec)] }
        (⟨s.nextId, ocb, ofcid, ocid, otid, oq, ota, ocur, oitv, odesc, opa, ost, osub, none, ompm, opm⟩ : OrderRec) := by
    simp [runCreated, createRow, hev]
  have hevb : eventBranch env (some u) (⟨c, pt, u, false, (⟨oid, ocb, ofcid, ocid, otid, oq, ota, ocur, oitv, odesc, opa, ost, osub, none, ompm, opm⟩ : OrderRec)⟩ : Prep)
      { s with cache := cache', nextId := s.nextId + 1, orders := s.orders ++ [(⟨s.nextId, ocb, ofcid, ocid, otid, oq, ota, ocur, oitv, odesc, opa, ost, osub, none, ompm, opm⟩ : OrderRec)] }
      (⟨s.nextId, ocb, ofcid, ocid, otid, oq, ota, ocur, oitv, odesc, opa, ost, osub, none, ompm, opm⟩ : OrderRec) =
      ({ s with cache := cache', nextId := s.nextId + 1, orders := putOrd (s.orders ++ [(⟨s.nextId, ocb, ofcid, ocid, otid, oq, ota, ocur, oitv, odesc, opa, ost, osub, none, ompm, opm⟩ : OrderRec)]) (⟨s.nextId, ocb, ofcid, ocid, otid, oq, ota, ocur, oitv, odesc, some s.time, OrderStatus.PAID, osub, none, ompm, opm⟩ : OrderRec), members := s.members ++ [(c.id, u.id, Role.ATTENDEE)], activities := s.activities ++ [(⟨ActKind.TICKET_CONFIRMED, none, none, some c.id, some u.id⟩ : Activity)] },
       (⟨s.nextId, ocb, ofcid, ocid, otid, oq, ota, ocur, oitv, odesc, some s.time, OrderStatus.PAID, osub, none, ompm, opm⟩ : OrderRec),
       .ok (⟨s.nextId, ocb, ofcid, ocid, otid, oq, ota, ocur, oitv, odesc, some s.time, OrderStatus.PAID, osub, none, ompm, opm⟩ : OrderRec)) := by
    simp only [eventBranch, hact, finishOrder, hfound]
  have hfin : createOrder env inp (some u) ip s =
      ({ s with cache := cache', nextId := s.nextId + 1, orders := putOrd (s.orders ++ [(⟨s.nextId, ocb, ofcid, ocid, otid, oq, ota, ocur, oitv, odesc, opa, ost, osub, none, ompm, opm⟩ : OrderRec)]) (⟨s.nextId, ocb, ofcid, ocid, otid, oq, ota, ocur, oitv, odesc, some s.time, OrderStatus.PAID, osub, none, ompm, opm⟩ : OrderRec), members := s.members ++ [(c.id, u.id, Role.ATTENDEE)], activities := s.activities ++ [(⟨ActKind.TICKET_CONFIRMED, none, none, some c.id, some u.id⟩ : Activity)] },
       .ok (⟨s.nextId, ocb, ofcid, ocid, otid, oq, ota, ocur, oitv, odesc, some s.time, OrderStatus.PAID, osub, none, ompm, opm⟩ : OrderRec)) := by
    simp [createOrder, hlim, hr, hrt, hpr, hrun, hevb]
  refine ⟨(⟨s.nextId, ocb, ofcid, ocid, otid, oq, ota, ocur, oitv, odesc, some s.time, OrderStatus.PAID, osub, none, ompm, opm⟩ : OrderRec), ?_, rfl, rfl, ?_, ?_⟩
  · rw [hfin]
  · rw [hfin]
    simp
  · rw [hfin]
    exact ⟨(⟨ActKind.TICKET_CONFIRMED, none, none, some c.id, some u.id⟩ : Activity), by simp, rfl⟩

/-- Witness for C4: a free ticket on a concrete event collective. -/
theorem createOrder_free_event_witness :
    ∃ o, (createOrder c4Env c4Inp (some adminUser) none st0).2 = .ok o
      ∧ o.status = OrderStatus.PAID
      ∧ o.processedAt = some st0.time
      ∧ (eventColl.id, adminUser.id, Role.ATTENDEE) ∈
          (createOrder c4Env c4Inp (some adminUser) none st0).1.members
      ∧ ∃ a ∈ (createOrder c4Env c4Inp (some adminUser) none st0).1.activities,
          a.akind = ActKind.TICKET_CONFIRMED :=
  createOrder_free_event c4Env c4Inp adminUser none st0 eventColl none fcColl st0.cache
    rfl ⟨none, rfl⟩ rfl rfl rfl (fun _ h => nomatch h) rfl rfl rfl rfl rfl rfl rfl rfl rfl
    (fun _ => rfl) (by decide)

end OrdersSpec
